import Mathlib

/-!
# Verification of `weather_server.py`

A shallow embedding of the weather MCP server's data-retrieval and
view-building pipeline, together with theorems settling the spec's claims.

JSON values decoded by `json.loads` are modelled by the inductive `JVal`;
Python dicts are association lists `Obj := List (String × JVal)` (JSON
objects have unique keys, and Python dict lookup returns the entry for the
key).  Python floats are carried by their decimal representation string
(`JVal.num`); no claim depends on floating-point arithmetic, only on the
text that `str(x)` produces inside f-strings, which is exactly the carried
representation for numbers produced by `json.loads`.

The network round trip inside `fetch_weather_data` (`urllib.request.urlopen`
plus `json.loads`) is fallible I/O; it is embedded as an `Except String Obj`
argument: `.ok payload` is a successful decode, `.error e` is the `str(e)`
of whatever exception the `try` block caught.

`datetime.now(...)` in `get_today_hourly_weather` reads the clock; the
resolved `"YYYY-MM-DD"` token `today_str` (computed at lines 155-159 of the
source, with the `ZoneInfo`-failure fallback to the process-local date) is
therefore passed to the embedded builder as an explicit parameter: both the
zone-resolved and the degraded path produce some date string, and every
claim speaks only of "today's resolved date token".
-/

/-- A decoded JSON value (`json.loads` output).  Integers and non-integral
numbers are separate constructors because `json.loads` decodes `1` as a
Python `int` and `1.5` as a `float`; floats are carried by their printed
decimal form, which is all the pipeline ever uses of them. -/
inductive JVal where
  | null : JVal
  | bool : Bool → JVal
  | int : Int → JVal
  | num : String → JVal
  | str : String → JVal
  | arr : List JVal → JVal
  | obj : List (String × JVal) → JVal

/-- A decoded JSON object / Python dict. -/
abbrev Obj := List (String × JVal)

/-- Python `str(x)` as used in the source's f-strings.  Scalars follow
Python's formatting; the pipeline never formats a container value in any
behaviour a claim constrains, so containers are given a fixed textual
placeholder rather than Python's full recursive repr. -/
def pyStr : JVal → String
  | JVal.null => "None"
  | JVal.bool true => "True"
  | JVal.bool false => "False"
  | JVal.int n => toString n
  | JVal.num s => s
  | JVal.str s => s
  | JVal.arr _ => "[...]"
  | JVal.obj _ => "{...}"

/-- Python `d.get(k, default)` on a dict. -/
def dictGet (o : Obj) (k : String) (d : JVal) : JVal :=
  (o.lookup k).getD d

/-- Python `d.get(k, {})` where the value at `k` is a dict, as in
`data.get("current", {})`: yields the entries of the object at `k`, or the
empty dict when the key is absent.  (A non-dict value at `k` would make the
subsequent `.get` raise in Python; the payloads the claims quantify over
carry dicts here.) -/
def getDict (o : Obj) (k : String) : Obj :=
  match o.lookup k with
  | some (JVal.obj m) => m
  | _ => []

/-- Python `d.get(k, [])` where the value at `k` is an array, as in
`hourly.get("time", [])`: the elements of the array at `k`, or `[]` when
the key is absent.  (The upstream payloads the claims quantify over carry
arrays here.) -/
def getList (o : Obj) (k : String) : List JVal :=
  match o.lookup k with
  | some (JVal.arr l) => l
  | _ => []

/-- The fixed WMO-code table of `weather_code_to_description`
(source lines 35-64). -/
def weather_descriptions : List (Int × String) :=
  [(0, "晴れ"),
   (1, "主に晴れ"),
   (2, "一部曇り"),
   (3, "曇り"),
   (45, "霧"),
   (48, "霧氷"),
   (51, "弱い雨滴"),
   (53, "中程度の雨滴"),
   (55, "強い雨滴"),
   (56, "弱い凍雨滴"),
   (57, "強い凍雨滴"),
   (61, "弱い雨"),
   (63, "中程度の雨"),
   (65, "強い雨"),
   (66, "弱い凍雨"),
   (67, "強い凍雨"),
   (71, "弱い雪"),
   (73, "中程度の雪"),
   (75, "強い雪"),
   (77, "雪粒子"),
   (80, "弱いにわか雨"),
   (81, "中程度のにわか雨"),
   (82, "強いにわか雨"),
   (85, "弱いにわか雪"),
   (86, "強いにわか雪"),
   (95, "雷雨"),
   (96, "軽度の雷雨とひょう"),
   (99, "激しい雷雨とひょう")]

/-- `weather_code_to_description(code)` (source lines 33-65):
`weather_descriptions.get(code, f"不明な天気コード: {code}")`. -/
def weather_code_to_description (code : Int) : String :=
  (weather_descriptions.lookup code).getD ("不明な天気コード: " ++ toString code)

/-- The source applies `weather_code_to_description` to values taken
straight out of the decoded JSON (`codes[i]`, `current.get("weather_code", 0)`).
An integer value hits the int-keyed dict; any other value misses every key
and Python's `dict.get` yields the fallback with `str` of that value. -/
def describe_val : JVal → String
  | JVal.int n => weather_code_to_description n
  | v => "不明な天気コード: " ++ pyStr v

/-- `fetch_weather_data` (source lines 10-31), with the I/O round trip
(`urlopen` + `json.loads`) embedded as the `attempt` argument: `.ok data`
when the request and decode succeed, `.error e` carrying `str(e)` of the
exception otherwise.  The `try`/`except Exception` catches every failure and
returns the single-field error dict. -/
def fetch_weather_data (attempt : Except String Obj) : Obj :=
  match attempt with
  | Except.ok data => data
  | Except.error e => [("error", JVal.str ("APIリクエストに失敗しました: " ++ e))]

/-- `get_current_weather` (source lines 67-90), applied to the fetched
`data`.  The `print` on line 77 has no effect on the returned value. -/
def get_current_weather (latitude longitude : JVal) (location_name : String)
    (data : Obj) : Obj :=
  if (data.lookup "error").isSome then data
  else
    let current := getDict data "current"
    [("location", JVal.str location_name),
     ("coordinates", JVal.obj [("latitude", latitude), ("longitude", longitude)]),
     ("temperature", JVal.str (pyStr (dictGet current "temperature_2m" (JVal.str "N/A")) ++ "°C")),
     ("humidity", JVal.str (pyStr (dictGet current "relative_humidity_2m" (JVal.str "N/A")) ++ "%")),
     ("weather", JVal.str (describe_val (dictGet current "weather_code" (JVal.int 0)))),
     ("windspeed", JVal.str (pyStr (dictGet current "windspeed_10m" (JVal.str "N/A")) ++ " km/h")),
     ("weather_code", (current.lookup "weather_code").getD JVal.null)]

/-- One day record of the weekly forecast loop body (source lines 115-121):
`day_data` for index `i`. -/
def weekly_day_record (times codes tmax tmin prec : List JVal) (i : Nat) : Obj :=
  [("date", (times.get? i).getD JVal.null),
   ("weather", JVal.str (match codes.get? i with
     | some c => describe_val c
     | none => "不明")),
   ("temparature_max", JVal.str (match tmax.get? i with
     | some v => pyStr v ++ "°C"
     | none => "N/A")),
   ("temparature_min", JVal.str (match tmin.get? i with
     | some v => pyStr v ++ "°C"
     | none => "N/A")),
   ("precipitation", JVal.str (match prec.get? i with
     | some v => pyStr v ++ " mm"
     | none => "N/A"))]

/-- The daily group's `time` array (source line 107). -/
def daily_times (data : Obj) : List JVal :=
  getList (getDict data "daily") "time"

/-- The daily group's `weather_code` array (source line 108). -/
def daily_codes (data : Obj) : List JVal :=
  getList (getDict data "daily") "weather_code"

/-- The daily group's `temperature_2m_max` array (source line 109). -/
def daily_tmax (data : Obj) : List JVal :=
  getList (getDict data "daily") "temperature_2m_max"

/-- The daily group's `temperature_2m_min` array (source line 110). -/
def daily_tmin (data : Obj) : List JVal :=
  getList (getDict data "daily") "temperature_2m_min"

/-- The daily group's `precipitation_sum` array (source line 111). -/
def daily_prec (data : Obj) : List JVal :=
  getList (getDict data "daily") "precipitation_sum"

/-- The `forecast` list of `get_weekly_forecast` (source lines 113-122):
the loop `for i in range(len(times))` appending `day_data` is the map of
`weekly_day_record` over `range N`. -/
def weekly_records (data : Obj) : List Obj :=
  (List.range (daily_times data).length).map
    (weekly_day_record (daily_times data) (daily_codes data) (daily_tmax data)
      (daily_tmin data) (daily_prec data))

/-- `get_weekly_forecast` (source lines 92-129), applied to the fetched
`data`. -/
def get_weekly_forecast (latitude longitude : JVal) (location_name : String)
    (data : Obj) : Obj :=
  if (data.lookup "error").isSome then data
  else
    [("location", JVal.str location_name),
     ("coordinates", JVal.obj [("latitude", latitude), ("longitude", longitude)]),
     ("forecast_period", JVal.str "7日間"),
     ("forecast", JVal.arr ((weekly_records data).map JVal.obj))]

/-- The `item` dict built for a matching hourly index (source lines 165-171). -/
def hour_item (temps codes precs : List JVal) (i : Nat) (t : String) : Obj :=
  [("time", JVal.str t),
   ("temperature", JVal.str (match temps.get? i with
     | some v => pyStr v ++ "°C"
     | none => "N/A")),
   ("weather", JVal.str (match codes.get? i with
     | some c => describe_val c
     | none => "不明")),
   ("weader_code", (codes.get? i).getD JVal.null),
   ("precipitation", JVal.str (match precs.get? i with
     | some v => pyStr v ++ " mm"
     | none => "N/A"))]

/-- Python `s.startswith(p)`: whether the character sequence of `p` is an
initial segment of that of `s`. -/
def py_startswith (p s : String) : Bool :=
  p.data.isPrefixOf s.data

/-- The loop-body filter of `build_hours_for` (source line 164) for index
`i` and entry `t`: the appended items (one when
`isinstance(t, str) and t.startswith(tok)`, none otherwise). -/
def hour_entry (temps codes precs : List JVal) (tok : String) (i : Nat) : JVal → List Obj
  | JVal.str s => if py_startswith tok s then [hour_item temps codes precs i s] else []
  | _ => []

/-- The inner `build_hours_for(day_prefix)` closure (source lines 161-173):
`for i, t in enumerate(times)` appending the item at each passing entry.
`i` is the running `enumerate` index; the closure captures `times`, `temps`,
`codes`, `precs`. -/
def build_hours_for (temps codes precs : List JVal) (tok : String) :
    Nat → List JVal → List Obj
  | _, [] => []
  | i, t :: rest =>
    hour_entry temps codes precs tok i t ++ build_hours_for temps codes precs tok (i + 1) rest

/-- The hourly group's `times` array (source line 146). -/
def hourly_times (data : Obj) : List JVal :=
  getList (getDict data "hourly") "time"

/-- The hourly group's `temperature_2m` array (source line 147). -/
def hourly_temps (data : Obj) : List JVal :=
  getList (getDict data "hourly") "temperature_2m"

/-- The hourly group's `weather_code` array (source line 148). -/
def hourly_codes (data : Obj) : List JVal :=
  getList (getDict data "hourly") "weather_code"

/-- The hourly group's `precipitation` array (source line 149). -/
def hourly_precs (data : Obj) : List JVal :=
  getList (getDict data "hourly") "precipitation"

/-- One whole pass of `build_hours_for` over the fetched data's hourly
arrays with date token `tok`. -/
def hours_pass (tok : String) (data : Obj) : List Obj :=
  build_hours_for (hourly_temps data) (hourly_codes data) (hourly_precs data)
    tok 0 (hourly_times data)

/-- The fallback date token of `get_today_hourly_weather` (source lines
178-179): `current_time[:10]` when `data.get("current", {}).get("time")` is
a string of at least 10 characters, nothing otherwise. -/
def fallback_token (data : Obj) : Option String :=
  match (getDict data "current").lookup "time" with
  | some (JVal.str ct) => if 10 ≤ ct.length then some (ct.take 10) else none
  | _ => none

/-- The final `hours` list of `get_today_hourly_weather` (source lines
175-180): the primary pass `build_hours_for(today_str)`, replaced by the
fallback pass `build_hours_for(current_time[:10])` exactly when the primary
pass is empty and the fallback token exists. -/
def hourly_hours (today_str : String) (data : Obj) : List Obj :=
  let hours := hours_pass today_str data
  if hours.isEmpty then
    match fallback_token data with
    | some tok => hours_pass tok data
    | none => hours
  else hours

/-- `get_today_hourly_weather` (source lines 131-186), applied to the fetched
`data`; `today_str` is the date token resolved from the clock at source
lines 155-159 (see the module comment).  Note that the returned `"date"`
field is always `today_str` (source line 184), whichever pass produced the
hours. -/
def get_today_hourly_weather (latitude longitude : JVal) (location_name : String)
    (today_str : String) (data : Obj) : Obj :=
  if (data.lookup "error").isSome then data
  else
    if (hourly_times data).isEmpty then
      [("error", JVal.str "時間データが取得できませんでした。")]
    else
      [("location", JVal.str location_name),
       ("coordinates", JVal.obj [("latitude", latitude), ("longitude", longitude)]),
       ("date", JVal.str today_str),
       ("hours", JVal.arr ((hourly_hours today_str data).map JVal.obj))]

/-- Whether an hourly `times` entry passes the filter of `build_hours_for`
for token `tok`: `isinstance(t, str) and t.startswith(tok)`. -/
def hour_time_matches (tok : String) : JVal → Bool
  | JVal.str s => py_startswith tok s
  | _ => false

/-- Whether a decoded value is a Python `str`. -/
def JVal.isStr : JVal → Bool
  | JVal.str _ => true
  | _ => false

/-! ## Supporting lemmas -/

/-- A non-matching entry contributes nothing to the hours list. -/
theorem hour_entry_eq_nil (temps codes precs : List JVal) (tok : String)
    (i : Nat) (t : JVal) (h : hour_time_matches tok t = false) :
    hour_entry temps codes precs tok i t = [] := by
  cases t <;> simp_all [hour_entry, hour_time_matches]

/-- A matching entry is a string and contributes exactly its item. -/
theorem hour_entry_eq_item (temps codes precs : List JVal) (tok : String)
    (i : Nat) (s : String) (h : py_startswith tok s = true) :
    hour_entry temps codes precs tok i (JVal.str s) = [hour_item temps codes precs i s] := by
  simp [hour_entry, h]

/-- The number of hour records equals the number of `times` entries that are
strings starting with the token (so the loop drops non-strings and
non-matching strings, and nothing else). -/
theorem build_hours_for_length (temps codes precs : List JVal) (tok : String)
    (i : Nat) (times : List JVal) :
    (build_hours_for temps codes precs tok i times).length
      = times.countP (hour_time_matches tok) := by
  induction times generalizing i with
  | nil => rfl
  | cons t rest ih =>
    rw [build_hours_for, List.length_append, ih, List.countP_cons]
    cases h : hour_time_matches tok t with
    | false => rw [hour_entry_eq_nil _ _ _ _ _ _ h]; simp
    | true =>
      cases t with
      | str s => rw [hour_entry_eq_item _ _ _ _ _ _ (by simpa [hour_time_matches] using h)]; simp [Nat.add_comm]
      | _ => simp [hour_time_matches] at h

/-- Every produced hour record carries as its `"time"` field one of the
timestamps, a string beginning with the token. -/
theorem build_hours_for_time_of_mem (temps codes precs : List JVal) (tok : String)
    (i : Nat) (times : List JVal) (rec : Obj)
    (h : rec ∈ build_hours_for temps codes precs tok i times) :
    ∃ s, rec.lookup "time" = some (JVal.str s) ∧ py_startswith tok s = true := by
  induction times generalizing i with
  | nil => cases h
  | cons t rest ih =>
    rw [build_hours_for] at h
    rcases List.mem_append.1 h with h1 | h2
    · cases t with
      | str s =>
        cases hp : py_startswith tok s with
        | false => rw [hour_entry_eq_nil _ _ _ _ _ _ (by simp [hour_time_matches, hp])] at h1; cases h1
        | true =>
          rw [hour_entry_eq_item _ _ _ _ _ _ hp] at h1
          have : rec = hour_item temps codes precs i s := by simpa using h1
          exact ⟨s, by rw [this]; rfl, hp⟩
      | _ =>
        rw [hour_entry_eq_nil _ _ _ _ _ _ (by simp [hour_time_matches])] at h1
        cases h1
    · exact ih (i + 1) h2

/-- Replacing a non-string `times` entry by another non-string value leaves
the built hours unchanged. -/
theorem build_hours_for_set (temps codes precs : List JVal) (tok : String)
    (i j : Nat) (times : List JVal) (v w : JVal)
    (hj : times.get? j = some v) (hv : v.isStr = false) (hw : w.isStr = false) :
    build_hours_for temps codes precs tok i (times.set j w)
      = build_hours_for temps codes precs tok i times := by
  induction times generalizing i j with
  | nil => simp at hj
  | cons t rest ih =>
    cases j with
    | zero =>
      have ht : t = v := by simpa using hj
      subst ht
      rw [List.set_cons_zero, build_hours_for, build_hours_for,
        hour_entry_eq_nil _ _ _ _ _ _ (by cases w <;> simp_all [hour_time_matches, JVal.isStr]),
        hour_entry_eq_nil _ _ _ _ _ _ (by cases t <;> simp_all [hour_time_matches, JVal.isStr])]
    | succ k =>
      have hj' : rest.get? k = some v := by simpa using hj
      rw [List.set_cons_succ, build_hours_for, build_hours_for, ih (i + 1) k hj']

/-! ## Claims -/

/-- Claim C8: `fetch_weather_data` never raises past its boundary: every
failure of the embedded transport/HTTP/decode step yields a mapping whose
only populated field is `"error"`, carrying a message that embeds the
underlying failure reason (`str(e)` as a suffix); a successful decode is
returned as-is, with no validation. -/
theorem fetch_weather_data_error_channel :
    (∀ data : Obj, fetch_weather_data (Except.ok data) = data) ∧
    (∀ e : String, ∃ msg : String,
      fetch_weather_data (Except.error e) = [("error", JVal.str msg)] ∧
      ∃ a, msg = a ++ e) :=
  ⟨fun _ => rfl,
   fun e => ⟨"APIリクエストに失敗しました: " ++ e, rfl, "APIリクエストに失敗しました: ", rfl⟩⟩

/-- Claim C4: `weather_code_to_description` is total over the integers (it
is a Lean function, defined for every `Int`); for every code in the fixed
table it returns that code's exact label, and for every other integer it
returns the deterministic fallback, which contains the numeric code
verbatim (as a suffix) together with the unknown marker `"不明"` (as a
prefix). -/
theorem weather_code_to_description_spec (code : Int) :
    (∀ d, weather_descriptions.lookup code = some d →
      weather_code_to_description code = d) ∧
    (weather_descriptions.lookup code = none →
      weather_code_to_description code = "不明な天気コード: " ++ toString code ∧
      (∃ a, weather_code_to_description code = a ++ toString code) ∧
      (∃ b, weather_code_to_description code = "不明" ++ b)) := by
  constructor
  · intro d hd; simp [weather_code_to_description, hd]
  · intro h
    refine ⟨by simp [weather_code_to_description, h],
      ⟨"不明な天気コード: ", by simp [weather_code_to_description, h]⟩,
      ⟨"な天気コード: " ++ toString code, ?_⟩⟩
    simp only [weather_code_to_description, h, Option.getD_none]
    rw [← String.append_assoc]; rfl

/-- Witness for C4 at a known code (95, thunderstorm) and an unknown one. -/
theorem weather_code_to_description_spec_witness :
    weather_code_to_description 95 = "雷雨" ∧
    weather_code_to_description (-1) = "不明な天気コード: -1" :=
  ⟨(weather_code_to_description_spec 95).1 "雷雨" rfl,
   ((weather_code_to_description_spec (-1)).2 (by decide)).1⟩

/-- Claim C1: a fetched mapping containing an `"error"` key is returned
unchanged — as the entire result, hence with no reshaping or indexing of
its own — by each of the three view builders. -/
theorem error_propagation_identity (latitude longitude : JVal)
    (location_name today_str : String) (data : Obj)
    (h : (data.lookup "error").isSome = true) :
    get_current_weather latitude longitude location_name data = data ∧
    get_weekly_forecast latitude longitude location_name data = data ∧
    get_today_hourly_weather latitude longitude location_name today_str data = data := by
  refine ⟨?_, ?_, ?_⟩ <;>
    simp [get_current_weather, get_weekly_forecast, get_today_hourly_weather, h]

/-- Witness for C1: an error payload passes through all three builders. -/
theorem error_propagation_identity_witness :
    (([("error", JVal.str "boom")] : Obj).lookup "error").isSome = true ∧
    get_current_weather JVal.null JVal.null "Tokyo" [("error", JVal.str "boom")]
      = [("error", JVal.str "boom")] ∧
    get_weekly_forecast JVal.null JVal.null "Tokyo" [("error", JVal.str "boom")]
      = [("error", JVal.str "boom")] ∧
    get_today_hourly_weather JVal.null JVal.null "Tokyo" "2024-01-01"
      [("error", JVal.str "boom")] = [("error", JVal.str "boom")] := by
  have h := error_propagation_identity JVal.null JVal.null "Tokyo" "2024-01-01"
    [("error", JVal.str "boom")] rfl
  exact ⟨rfl, h.1, h.2.1, h.2.2⟩

/-- Claim C5: in `get_current_weather`, on a non-error response every absent
numeric/text field of the current snapshot is substituted by the `"N/A"`
sentinel in the corresponding output field (the sentinel carries the
field's unit suffix from the f-string), and an absent weather code degrades
to the translator's description of code 0. -/
theorem current_weather_absent_fields (latitude longitude : JVal)
    (location_name : String) (data : Obj)
    (h : (data.lookup "error").isSome = false) :
    ((getDict data "current").lookup "temperature_2m" = none →
      (get_current_weather latitude longitude location_name data).lookup "temperature"
        = some (JVal.str "N/A°C")) ∧
    ((getDict data "current").lookup "relative_humidity_2m" = none →
      (get_current_weather latitude longitude location_name data).lookup "humidity"
        = some (JVal.str "N/A%")) ∧
    ((getDict data "current").lookup "windspeed_10m" = none →
      (get_current_weather latitude longitude location_name data).lookup "windspeed"
        = some (JVal.str "N/A km/h")) ∧
    ((getDict data "current").lookup "weather_code" = none →
      (get_current_weather latitude longitude location_name data).lookup "weather"
        = some (JVal.str (weather_code_to_description 0)) ∧
      (get_current_weather latitude longitude location_name data).lookup "weather_code"
        = some JVal.null) := by
  refine ⟨fun ha => ?_, fun ha => ?_, fun ha => ?_, fun ha => ⟨?_, ?_⟩⟩ <;>
    simp [get_current_weather, h, dictGet, ha, List.lookup, pyStr, describe_val]

/-- Witness for C5: a response whose current snapshot is empty. -/
theorem current_weather_absent_fields_witness :
    ((([("current", JVal.obj [])] : Obj).lookup "error").isSome = false ∧
      (getDict [("current", JVal.obj [])] "current").lookup "temperature_2m" = none) ∧
    (get_current_weather JVal.null JVal.null "Tokyo" [("current", JVal.obj [])]).lookup
      "temperature" = some (JVal.str "N/A°C") ∧
    (get_current_weather JVal.null JVal.null "Tokyo" [("current", JVal.obj [])]).lookup
      "weather" = some (JVal.str (weather_code_to_description 0)) := by
  have h := current_weather_absent_fields JVal.null JVal.null "Tokyo"
    [("current", JVal.obj [])] rfl
  exact ⟨⟨rfl, rfl⟩, h.1 rfl, (h.2.2.2 rfl).1⟩

/-- Claim C7: on a non-error response whose hourly `times` array is empty,
`get_today_hourly_weather` returns the view-local hourly-unavailable error
mapping, which differs from every mapping the fetcher produces for an
upstream failure; the other two builders ignore the condition and return
error-free mappings. -/
theorem hourly_empty_times_error (latitude longitude : JVal)
    (location_name today_str : String) (data : Obj)
    (h1 : (data.lookup "error").isSome = false)
    (h2 : hourly_times data = []) :
    get_today_hourly_weather latitude longitude location_name today_str data
      = [("error", JVal.str "時間データが取得できませんでした。")] ∧
    (∀ e : String,
      get_today_hourly_weather latitude longitude location_name today_str data
        ≠ fetch_weather_data (Except.error e)) ∧
    (get_weekly_forecast latitude longitude location_name data).lookup "error" = none ∧
    (get_current_weather latitude longitude location_name data).lookup "error" = none := by
  have hmain : get_today_hourly_weather latitude longitude location_name today_str data
      = [("error", JVal.str "時間データが取得できませんでした。")] := by
    simp [get_today_hourly_weather, h1, h2]
  refine ⟨hmain, fun e heq => ?_, ?_, ?_⟩
  · rw [hmain] at heq
    simp only [fetch_weather_data, List.cons.injEq, Prod.mk.injEq, JVal.str.injEq] at heq
    have := congrArg (fun s => String.data s) heq.1.2
    simp [String.data_append] at this
  · simp [get_weekly_forecast, h1, List.lookup]
  · simp [get_current_weather, h1, List.lookup]

/-- Witness for C7: a response with an empty hourly series. -/
theorem hourly_empty_times_error_witness :
    ((([("hourly", JVal.obj [("time", JVal.arr [])])] : Obj).lookup "error").isSome = false ∧
      hourly_times [("hourly", JVal.obj [("time", JVal.arr [])])] = []) ∧
    get_today_hourly_weather JVal.null JVal.null "Tokyo" "2024-01-01"
      [("hourly", JVal.obj [("time", JVal.arr [])])]
      = [("error", JVal.str "時間データが取得できませんでした。")] ∧
    (get_weekly_forecast JVal.null JVal.null "Tokyo"
      [("hourly", JVal.obj [("time", JVal.arr [])])]).lookup "error" = none := by
  have h := hourly_empty_times_error JVal.null JVal.null "Tokyo" "2024-01-01"
    [("hourly", JVal.obj [("time", JVal.arr [])])] rfl rfl
  exact ⟨⟨rfl, rfl⟩, h.1, h.2.2.1⟩

/-- A nonempty primary pass is kept as the final hours list: the fallback
never runs when the primary pass produced records. -/
theorem hourly_hours_of_primary (today_str : String) (data : Obj)
    (h : hours_pass today_str data ≠ []) :
    hourly_hours today_str data = hours_pass today_str data := by
  simp [hourly_hours, List.isEmpty_iff, h]

/-- When the primary pass is empty and the fallback token exists, the
fallback pass is the final hours list. -/
theorem hourly_hours_of_fallback (today_str tok : String) (data : Obj)
    (h : hours_pass today_str data = [])
    (hf : fallback_token data = some tok) :
    hourly_hours today_str data = hours_pass tok data := by
  simp [hourly_hours, h, hf]

/-- When the primary pass is empty and there is no fallback token, the
final hours list is empty. -/
theorem hourly_hours_of_no_fallback (today_str : String) (data : Obj)
    (h : hours_pass today_str data = [])
    (hf : fallback_token data = none) :
    hourly_hours today_str data = [] := by
  simp [hourly_hours, h, hf]

/-- The fallback token does not exist when the current snapshot's `time` is
absent, is not a string, or is a string of fewer than 10 characters. -/
theorem fallback_token_eq_none (data : Obj)
    (hno : ∀ ct, (getDict data "current").lookup "time" = some (JVal.str ct) →
      ct.length < 10) :
    fallback_token data = none := by
  unfold fallback_token
  cases hl : (getDict data "current").lookup "time" with
  | none => rfl
  | some v =>
    cases v <;> try rfl
    rename_i ct
    exact if_neg (Nat.not_le.2 (hno ct hl))

/-- The shape of `get_today_hourly_weather` on a non-error response with a
nonempty hourly series. -/
theorem get_today_hourly_weather_eq (latitude longitude : JVal)
    (location_name today_str : String) (data : Obj)
    (h1 : (data.lookup "error").isSome = false)
    (h2 : hourly_times data ≠ []) :
    get_today_hourly_weather latitude longitude location_name today_str data
      = [("location", JVal.str location_name),
         ("coordinates", JVal.obj [("latitude", latitude), ("longitude", longitude)]),
         ("date", JVal.str today_str),
         ("hours", JVal.arr ((hourly_hours today_str data).map JVal.obj))] := by
  simp [get_today_hourly_weather, h1, List.isEmpty_iff, h2]

/-- Claim C6 (amended): on a non-error response with a nonempty hourly
`times` array in which exactly `k` timestamps start with today's resolved
date token, where `k ≥ 1`, the returned `"hours"` sequence is exactly the
`k` records of the primary pass, one per matching index in order, each
record's time a timestamp carrying that prefix.  (As stated, with `k = 0`
allowed, the claim fails: the fallback pass can repopulate `"hours"`; see
the counterexample.) -/
theorem hourly_today_exact_matches (latitude longitude : JVal)
    (location_name today_str : String) (data : Obj) (k : Nat)
    (h1 : (data.lookup "error").isSome = false)
    (h2 : hourly_times data ≠ [])
    (hk : (hourly_times data).countP (hour_time_matches today_str) = k)
    (hkpos : 0 < k) :
    (get_today_hourly_weather latitude longitude location_name today_str
        data).lookup "hours"
      = some (JVal.arr ((hours_pass today_str data).map JVal.obj)) ∧
    (hours_pass today_str data).length = k ∧
    ∀ rec ∈ hours_pass today_str data,
      ∃ s, rec.lookup "time" = some (JVal.str s) ∧ py_startswith today_str s = true := by
  have hlen : (hours_pass today_str data).length = k := by
    rw [hours_pass, build_hours_for_length]; exact hk
  have hne : hours_pass today_str data ≠ [] := by
    intro h0
    rw [h0] at hlen
    simp at hlen
    omega
  refine ⟨?_, hlen, ?_⟩
  · rw [get_today_hourly_weather_eq latitude longitude location_name today_str data h1 h2,
      hourly_hours_of_primary today_str data hne]
    rfl
  · intro rec hrec
    exact build_hours_for_time_of_mem _ _ _ _ _ _ _ hrec

/-- A response whose single hourly timestamp falls on the day after the
resolved date and whose current snapshot carries that same timestamp. -/
def c6_data : Obj :=
  [("hourly", JVal.obj
     [("time", JVal.arr [JVal.str "2025-05-06T00:00"]),
      ("temperature_2m", JVal.arr [JVal.num "10.0"]),
      ("weather_code", JVal.arr [JVal.int 1]),
      ("precipitation", JVal.arr [JVal.num "0.0"])]),
   ("current", JVal.obj [("time", JVal.str "2025-05-06T00:00")])]

/-- Counterexample to claim C6 as stated: on `c6_data` with resolved date
token `"2025-05-05"`, exactly `k = 0` hourly timestamps match, yet the
returned `"hours"` sequence has 1 record (the fallback pass fills it), not
`k`. -/
theorem hourly_today_exact_matches_counterexample :
    ((c6_data.lookup "error").isSome = false) ∧
    (hourly_times c6_data).length = 1 ∧
    (hourly_times c6_data).countP (hour_time_matches "2025-05-05") = 0 ∧
    (match (get_today_hourly_weather JVal.null JVal.null "X" "2025-05-05"
        c6_data).lookup "hours" with
     | some (JVal.arr l) => l.length
     | _ => 0) = 1 :=
  ⟨rfl, rfl, rfl, rfl⟩

/-- Claim C2 (amended): on a non-error response with a nonempty hourly
series, zero timestamps matching today's resolved date token, and a current
snapshot time that is a string of at least 10 characters whose 10-character
prefix matches exactly `m` hourly timestamps, the returned `"hours"`
sequence contains exactly those `m` fallback records (each time carrying
the fallback prefix) — but the returned `"date"` field equals today's
resolved date token, not the fallback prefix (source line 184). -/
theorem hourly_fallback_records (latitude longitude : JVal)
    (location_name today_str ct : String) (data : Obj) (m : Nat)
    (h1 : (data.lookup "error").isSome = false)
    (h2 : hourly_times data ≠ [])
    (h0 : (hourly_times data).countP (hour_time_matches today_str) = 0)
    (hct : (getDict data "current").lookup "time" = some (JVal.str ct))
    (hlen : 10 ≤ ct.length)
    (hm : (hourly_times data).countP (hour_time_matches (ct.take 10)) = m) :
    (get_today_hourly_weather latitude longitude location_name today_str
        data).lookup "hours"
      = some (JVal.arr ((hours_pass (ct.take 10) data).map JVal.obj)) ∧
    (hours_pass (ct.take 10) data).length = m ∧
    (∀ rec ∈ hours_pass (ct.take 10) data,
      ∃ s, rec.lookup "time" = some (JVal.str s) ∧
        py_startswith (ct.take 10) s = true) ∧
    (get_today_hourly_weather latitude longitude location_name today_str
        data).lookup "date" = some (JVal.str today_str) := by
  have hpe : hours_pass today_str data = [] := by
    rw [← List.length_eq_zero, hours_pass, build_hours_for_length]
    exact h0
  have hf : fallback_token data = some (ct.take 10) := by
    simp [fallback_token, hct, hlen]
  have hh := hourly_hours_of_fallback today_str (ct.take 10) data hpe hf
  rw [get_today_hourly_weather_eq latitude longitude location_name today_str data h1 h2, hh]
  refine ⟨rfl, ?_, ?_, rfl⟩
  · rw [hours_pass, build_hours_for_length]; exact hm
  · intro rec hrec
    exact build_hours_for_time_of_mem _ _ _ _ _ _ _ hrec

/-- A response whose single hourly timestamp falls on the day after the
resolved date, with the current snapshot carrying that same timestamp. -/
def c2_data : Obj :=
  [("hourly", JVal.obj
     [("time", JVal.arr [JVal.str "2024-01-02T03:00"]),
      ("temperature_2m", JVal.arr [JVal.num "5.5"]),
      ("weather_code", JVal.arr [JVal.int 0]),
      ("precipitation", JVal.arr [JVal.num "0.0"])]),
   ("current", JVal.obj [("time", JVal.str "2024-01-02T03:00")])]

/-- Counterexample to claim C2 as stated: on `c2_data` with today's
resolved token `"2024-01-01"`, the primary pass matches zero timestamps,
the fallback prefix is `"2024-01-02"` and matches exactly `m = 1` records,
which are returned — but the returned `"date"` is `"2024-01-01"` (today's
token), not the fallback prefix the claim announces. -/
theorem hourly_fallback_records_counterexample :
    ((c2_data.lookup "error").isSome = false) ∧
    (hourly_times c2_data).countP (hour_time_matches "2024-01-01") = 0 ∧
    ((getDict c2_data "current").lookup "time"
      = some (JVal.str "2024-01-02T03:00")) ∧
    (("2024-01-02T03:00" : String).take 10 = "2024-01-02") ∧
    (hourly_times c2_data).countP (hour_time_matches "2024-01-02") = 1 ∧
    (match (get_today_hourly_weather JVal.null JVal.null "X" "2024-01-01"
        c2_data).lookup "hours" with
     | some (JVal.arr l) => l.length
     | _ => 0) = 1 ∧
    (get_today_hourly_weather JVal.null JVal.null "X" "2024-01-01"
        c2_data).lookup "date" = some (JVal.str "2024-01-01") ∧
    JVal.str "2024-01-01" ≠ JVal.str "2024-01-02" := by
  refine ⟨rfl, rfl, rfl, rfl, rfl, rfl, rfl, fun h => ?_⟩
  injection h with h
  exact absurd h (by decide)

/-- Claim C10: the fallback pass runs only when the primary pass yields
zero records and the current snapshot's time is a string of at least 10
characters.  When the primary pass is empty and the current time is absent,
not a string, or shorter than 10 characters, no fallback applies and the
result is a valid non-error mapping with an empty `"hours"` sequence; and a
nonempty primary pass is always kept as the final hours list. -/
theorem hourly_fallback_condition (latitude longitude : JVal)
    (location_name today_str : String) (data : Obj)
    (h1 : (data.lookup "error").isSome = false)
    (h2 : hourly_times data ≠ []) :
    (hours_pass today_str data = [] →
      (∀ ct, (getDict data "current").lookup "time" = some (JVal.str ct) →
        ct.length < 10) →
      get_today_hourly_weather latitude longitude location_name today_str data
        = [("location", JVal.str location_name),
           ("coordinates", JVal.obj [("latitude", latitude), ("longitude", longitude)]),
           ("date", JVal.str today_str),
           ("hours", JVal.arr [])] ∧
      (get_today_hourly_weather latitude longitude location_name today_str
          data).lookup "error" = none) ∧
    (hours_pass today_str data ≠ [] →
      hourly_hours today_str data = hours_pass today_str data) := by
  constructor
  · intro hpe hno
    have hf := fallback_token_eq_none data hno
    have hh := hourly_hours_of_no_fallback today_str data hpe hf
    rw [get_today_hourly_weather_eq latitude longitude location_name today_str data h1 h2, hh]
    exact ⟨rfl, rfl⟩
  · exact hourly_hours_of_primary today_str data

/-- A response whose single hourly timestamp misses the resolved date and
whose current snapshot time is a 5-character string. -/
def c10_data : Obj :=
  [("hourly", JVal.obj [("time", JVal.arr [JVal.str "2024-01-02T03:00"])]),
   ("current", JVal.obj [("time", JVal.str "short")])]

/-- Witness for C10: with no match for today and a too-short current time,
the result is the non-error mapping with empty hours. -/
theorem hourly_fallback_condition_witness :
    get_today_hourly_weather JVal.null JVal.null "X" "2024-01-01" c10_data
      = [("location", JVal.str "X"),
         ("coordinates", JVal.obj [("latitude", JVal.null), ("longitude", JVal.null)]),
         ("date", JVal.str "2024-01-01"),
         ("hours", JVal.arr [])] ∧
    (get_today_hourly_weather JVal.null JVal.null "X" "2024-01-01"
        c10_data).lookup "error" = none := by
  have h2 : hourly_times c10_data ≠ [] := by
    intro hf
    have hl : (hourly_times c10_data).length = 1 := rfl
    rw [hf] at hl
    simp at hl
  have hno : ∀ ct, (getDict c10_data "current").lookup "time" = some (JVal.str ct) →
      ct.length < 10 := by
    intro ct h
    have h' : some (JVal.str "short") = some (JVal.str ct) := h
    injection h' with h'
    injection h' with h'
    rw [← h']
    decide
  exact (hourly_fallback_condition JVal.null JVal.null "X" "2024-01-01" c10_data
    rfl h2).1 rfl hno

/-- Claim C9: entries of the hourly `times` array that are not strings are
silently skipped by the prefix filter of `build_hours_for` — replacing a
non-string entry by any other non-string value leaves the built list
unchanged, the record count equals the number of string entries carrying
the prefix, and every record's time comes from a string entry.  This holds
for every date token and running index, hence for both the primary and the
fallback pass of `get_today_hourly_weather` (each is a `build_hours_for`
pass, see `hourly_hours`); being a Lean function, the filter never fails. -/
theorem hourly_nonstring_skipped (temps codes precs : List JVal) (tok : String)
    (i j : Nat) (times : List JVal) (v w : JVal)
    (hj : times.get? j = some v) (hv : v.isStr = false) (hw : w.isStr = false) :
    build_hours_for temps codes precs tok i (times.set j w)
      = build_hours_for temps codes precs tok i times ∧
    (build_hours_for temps codes precs tok i times).length
      = times.countP (hour_time_matches tok) ∧
    ∀ rec ∈ build_hours_for temps codes precs tok i times,
      ∃ s, rec.lookup "time" = some (JVal.str s) ∧ py_startswith tok s = true :=
  ⟨build_hours_for_set temps codes precs tok i j times v w hj hv hw,
   build_hours_for_length temps codes precs tok i times,
   fun rec h => build_hours_for_time_of_mem temps codes precs tok i times rec h⟩

/-- Witness for C9: a series holding an integer, a null and one matching
string; replacing the integer by null changes nothing, and exactly the one
string entry produces a record. -/
theorem hourly_nonstring_skipped_witness :
    build_hours_for [] [] [] "2024-01-01" 0
        ([JVal.int 3, JVal.str "2024-01-01T00:00", JVal.null].set 0 JVal.null)
      = build_hours_for [] [] [] "2024-01-01" 0
        [JVal.int 3, JVal.str "2024-01-01T00:00", JVal.null] ∧
    (build_hours_for [] [] [] "2024-01-01" 0
        [JVal.int 3, JVal.str "2024-01-01T00:00", JVal.null]).length
      = [JVal.int 3, JVal.str "2024-01-01T00:00", JVal.null].countP
          (hour_time_matches "2024-01-01") := by
  have h := hourly_nonstring_skipped [] [] [] "2024-01-01" 0 0
    [JVal.int 3, JVal.str "2024-01-01T00:00", JVal.null] (JVal.int 3) JVal.null
    rfl rfl rfl
  exact ⟨h.1, h.2.1⟩

/-- Claim C3: in `get_weekly_forecast`, on a non-error response whose daily
`times` array has length `N` and whose value arrays are each no longer than
`N`, the `"forecast"` sequence has exactly `N` records in the original
order; the i-th record's date is `times[i]`, and every field whose value
array has length ≤ i carries the sentinel — `"N/A"` for temperatures and
precipitation, the unknown label `"不明"` for the weather description. -/
theorem weekly_forecast_ragged (latitude longitude : JVal)
    (location_name : String) (data : Obj)
    (h : (data.lookup "error").isSome = false)
    (hc : (daily_codes data).length ≤ (daily_times data).length)
    (hmax : (daily_tmax data).length ≤ (daily_times data).length)
    (hmin : (daily_tmin data).length ≤ (daily_times data).length)
    (hp : (daily_prec data).length ≤ (daily_times data).length) :
    (get_weekly_forecast latitude longitude location_name data).lookup "forecast"
      = some (JVal.arr ((weekly_records data).map JVal.obj)) ∧
    (weekly_records data).length = (daily_times data).length ∧
    ∀ i, i < (daily_times data).length →
      (weekly_records data).get? i
        = some (weekly_day_record (daily_times data) (daily_codes data)
            (daily_tmax data) (daily_tmin data) (daily_prec data) i) ∧
      (weekly_day_record (daily_times data) (daily_codes data) (daily_tmax data)
          (daily_tmin data) (daily_prec data) i).lookup "date"
        = (daily_times data).get? i ∧
      ((daily_codes data).length ≤ i →
        (weekly_day_record (daily_times data) (daily_codes data) (daily_tmax data)
            (daily_tmin data) (daily_prec data) i).lookup "weather"
          = some (JVal.str "不明")) ∧
      ((daily_tmax data).length ≤ i →
        (weekly_day_record (daily_times data) (daily_codes data) (daily_tmax data)
            (daily_tmin data) (daily_prec data) i).lookup "temparature_max"
          = some (JVal.str "N/A")) ∧
      ((daily_tmin data).length ≤ i →
        (weekly_day_record (daily_times data) (daily_codes data) (daily_tmax data)
            (daily_tmin data) (daily_prec data) i).lookup "temparature_min"
          = some (JVal.str "N/A")) ∧
      ((daily_prec data).length ≤ i →
        (weekly_day_record (daily_times data) (daily_codes data) (daily_tmax data)
            (daily_tmin data) (daily_prec data) i).lookup "precipitation"
          = some (JVal.str "N/A")) := by
  refine ⟨by simp [get_weekly_forecast, h, List.lookup], by simp [weekly_records], ?_⟩
  intro i hi
  refine ⟨?_, ?_, fun hle => ?_, fun hle => ?_, fun hle => ?_, fun hle => ?_⟩
  · rw [weekly_records, List.get?_map, List.get?_range hi]
    rfl
  · obtain ⟨v, hv⟩ : ∃ v, (daily_times data).get? i = some v :=
      ⟨_, List.get?_eq_get hi⟩
    have hv' : (daily_times data)[i]? = some v := by
      rw [← List.get?_eq_getElem?]; exact hv
    rw [hv]
    simp [weekly_day_record, hv', List.lookup]
  · have hn : (daily_codes data)[i]? = none := by
      rw [← List.get?_eq_getElem?]; exact List.get?_eq_none.2 hle
    simp [weekly_day_record, hn, List.lookup]
  · have hn : (daily_tmax data)[i]? = none := by
      rw [← List.get?_eq_getElem?]; exact List.get?_eq_none.2 hle
    simp [weekly_day_record, hn, List.lookup]
  · have hn : (daily_tmin data)[i]? = none := by
      rw [← List.get?_eq_getElem?]; exact List.get?_eq_none.2 hle
    simp [weekly_day_record, hn, List.lookup]
  · have hn : (daily_prec data)[i]? = none := by
      rw [← List.get?_eq_getElem?]; exact List.get?_eq_none.2 hle
    simp [weekly_day_record, hn, List.lookup]

/-- The spec's own ragged-array example: two dates, a one-element max
temperature array, the other arrays empty. -/
def c3_data : Obj :=
  [("daily", JVal.obj
     [("time", JVal.arr [JVal.str "2024-01-01", JVal.str "2024-01-02"]),
      ("temperature_2m_max", JVal.arr [JVal.int 10])])]

/-- Witness for C3 on the spec's example: two records; the second record's
date is the second timestamp and its short-array fields all degrade to the
sentinels. -/
theorem weekly_forecast_ragged_witness :
    (get_weekly_forecast JVal.null JVal.null "X" c3_data).lookup "forecast"
      = some (JVal.arr ((weekly_records c3_data).map JVal.obj)) ∧
    (weekly_records c3_data).length = 2 ∧
    (weekly_day_record (daily_times c3_data) (daily_codes c3_data)
        (daily_tmax c3_data) (daily_tmin c3_data) (daily_prec c3_data) 1).lookup
      "date" = some (JVal.str "2024-01-02") ∧
    (weekly_day_record (daily_times c3_data) (daily_codes c3_data)
        (daily_tmax c3_data) (daily_tmin c3_data) (daily_prec c3_data) 1).lookup
      "temparature_max" = some (JVal.str "N/A") ∧
    (weekly_day_record (daily_times c3_data) (daily_codes c3_data)
        (daily_tmax c3_data) (daily_tmin c3_data) (daily_prec c3_data) 1).lookup
      "weather" = some (JVal.str "不明") := by
  have h := weekly_forecast_ragged JVal.null JVal.null "X" c3_data rfl
    (by decide) (by decide) (by decide) (by decide)
  have h1 := h.2.2 1 (by decide)
  exact ⟨h.1, h.2.1, by rw [h1.2.1]; rfl, h1.2.2.2.1 (by decide), h1.2.2.1 (by decide)⟩

/-- A response whose single hourly timestamp falls on the resolved date. -/
def c6_match_data : Obj :=
  [("hourly", JVal.obj
     [("time", JVal.arr [JVal.str "2025-05-05T01:00"]),
      ("temperature_2m", JVal.arr [JVal.num "10.0"]),
      ("weather_code", JVal.arr [JVal.int 1]),
      ("precipitation", JVal.arr [JVal.num "0.0"])])]

/-- Witness for the amended C6: with exactly one matching timestamp the
returned hours are the one-record primary pass. -/
theorem hourly_today_exact_matches_witness :
    (get_today_hourly_weather JVal.null JVal.null "X" "2025-05-05"
        c6_match_data).lookup "hours"
      = some (JVal.arr ((hours_pass "2025-05-05" c6_match_data).map JVal.obj)) ∧
    (hours_pass "2025-05-05" c6_match_data).length = 1 := by
  have h2 : hourly_times c6_match_data ≠ [] := by
    intro hf
    have hl : (hourly_times c6_match_data).length = 1 := rfl
    rw [hf] at hl
    simp at hl
  have h := hourly_today_exact_matches JVal.null JVal.null "X" "2025-05-05"
    c6_match_data 1 rfl h2 rfl (by decide)
  exact ⟨h.1, h.2.1⟩

/-- Witness for the amended C2 on `c2_data`: the one fallback record is
returned and the date reported is today's token. -/
theorem hourly_fallback_records_witness :
    (get_today_hourly_weather JVal.null JVal.null "X" "2024-01-01"
        c2_data).lookup "hours"
      = some (JVal.arr ((hours_pass ("2024-01-02T03:00".take 10) c2_data).map
          JVal.obj)) ∧
    (hours_pass ("2024-01-02T03:00".take 10) c2_data).length = 1 ∧
    (get_today_hourly_weather JVal.null JVal.null "X" "2024-01-01"
        c2_data).lookup "date" = some (JVal.str "2024-01-01") := by
  have h2 : hourly_times c2_data ≠ [] := by
    intro hf
    have hl : (hourly_times c2_data).length = 1 := rfl
    rw [hf] at hl
    simp at hl
  have h := hourly_fallback_records JVal.null JVal.null "X" "2024-01-01"
    "2024-01-02T03:00" c2_data 1 rfl h2 rfl rfl (by decide) rfl
  exact ⟨h.1, h.2.1, h.2.2.2⟩
